import Mathlib

/-
Verification of the georeferencing core of the ohmg repository.

The development shallowly embeds the Python code of `georeference/models.py`,
`georeference/views.py`, `georeference/management/commands/sessions.py` and
the migration `0007_auto_20221118_1939.py`.  Database rows become Lean
structures, the mutable Django ORM state becomes explicit state passing, and
Python exceptions become `Except`/error fields.  GeoJSON coordinates (floats
in the source) are modelled as rationals; no arithmetic is performed on them
by the embedded code, only moves and comparisons, so this is faithful.

Parts of the repository that the claims depend on but whose source files are
not in the tree (`georeference/splitter.py`, `georeference/georeferencer.py`,
and the new-model session engine `georeference/models/sessions.py`) are
modelled from the specification; each such definition carries a doc comment
starting with "Modelled from the spec:".
-/

/-- A Python exception value.  A Python-3 exception object has a `message`
attribute only when the raising code set one explicitly; built-in exceptions
(ValueError, RuntimeError as raised by GDAL, OSError, ...) have none, and
reading `e.message` on them raises AttributeError. -/
structure Exc where
  ename : String
  message : Option String
deriving DecidableEq

/-- The AttributeError raised by reading a missing attribute. -/
def attributeError : Exc := { ename := "AttributeError", message := none }

/-- Django's MultipleObjectsReturned, raised by `objects.get` on several rows. -/
def multipleObjectsReturned : Exc := { ename := "MultipleObjectsReturned", message := none }

/-- Django's User.DoesNotExist, raised by `objects.get(username=...)` on a miss. -/
def userDoesNotExist : Exc := { ename := "User.DoesNotExist", message := none }

/-- Python's TypeError, e.g. from subscripting/iterating None. -/
def typeError : Exc := { ename := "TypeError", message := none }

/-- One feature of an incoming GeoJSON FeatureCollection, as consumed by
`GCPGroup.save_from_geojson`: `properties.id` (may be absent),
`properties.username`, `properties.image` (the pixel pair) and
`geometry.coordinates`, which per GeoJSON is the pair (lng, lat). -/
structure Feature where
  id : Option String
  username : String
  image : Int × Int
  coordinates : Rat × Rat
deriving DecidableEq

/-- A row of the `GCP` model (georeference/models.py).  `geom` is the stored
PointField as an (x, y) pair; `save_from_geojson` stores `Point(lat, lng)`,
i.e. x = lat and y = lng.  `created_by` / `last_modified_by` are nullable
user references, carried as usernames. -/
structure GCP where
  id : String
  gcp_group : Nat
  pixel_x : Option Int
  pixel_y : Option Int
  geom : Option (Rat × Rat)
  note : Option String
  created_by : Option String
  last_modified_by : Option String
deriving DecidableEq

/-- A row of the `GCPGroup` model: one group per document, with the target
CRS and the chosen transformation kind. -/
structure GCPGroup where
  pk : Nat
  document : Nat
  crs_epsg : Option Int
  transformation : Option String
deriving DecidableEq

/-- A feature as produced by `GCPGroup.as_geojson`: the stored id, the pixel
pair (nullable columns), the last modifier's username, the note, and the
geometry coordinates emitted as [lng, lat]. -/
structure FeatureOut where
  id : String
  image : Option Int × Option Int
  username : String
  note : Option String
  coordinates : Rat × Rat
deriving DecidableEq

/-- `Point(lat, lng, srid=4326)` as built in `save_from_geojson`:
lng is `coordinates[0]`, lat is `coordinates[1]`, and the Point is
constructed with its axes swapped, so x = lat and y = lng. -/
def newGeomOf (f : Feature) : Rat × Rat :=
  (f.coordinates.2, f.coordinates.1)

/-- `gcp.geom` together with `gcp.pixel_x/pixel_y` is unchanged by the
incoming feature: the update branch of `save_from_geojson` is skipped exactly
when this holds (`new_pixel != old_pixel or not new_geom.equals(gcp.geom)`
is false). -/
def gcp_unchanged (f : Feature) (g : GCP) : Prop :=
  ((some f.image.1, some f.image.2) = (g.pixel_x, g.pixel_y)) ∧
    (some (newGeomOf f) = g.geom)

instance (f : Feature) (g : GCP) : Decidable (gcp_unchanged f g) := by
  unfold gcp_unchanged; infer_instance

/-- The record written by the update branch of `save_from_geojson`:
pixel pair, geometry and `last_modified_by` are rewritten, everything else
(identity, group, note, created_by) is kept. -/
def updated_gcp (f : Feature) (g : GCP) : GCP :=
  { g with
      pixel_x := some f.image.1
      pixel_y := some f.image.2
      geom := some (newGeomOf f)
      last_modified_by := some f.username }

/-- The ids under which the features of a collection are processed, starting
at loop index n: `feature['properties'].get('id', str(uuid.uuid4()))`, with
the fresh uuid of the index-n iteration supplied by `fresh n`. -/
def resolved_ids (fresh : Nat → String) : Nat → List Feature → List String
  | _, [] => []
  | n, f :: rest => (f.id.getD (fresh n)) :: resolved_ids fresh (n + 1) rest

/-- The GCP row created by
`GCP.objects.get_or_create(id=id, defaults={'gcp_group': group,
'created_by': user})` when no row with this id exists: only the id, the
group and the creator are set, every other column is null. -/
def fresh_gcp (i : String) (grp : Nat) (u : String) : GCP :=
  { id := i, gcp_group := grp, pixel_x := none, pixel_y := none,
    geom := none, note := none, created_by := some u,
    last_modified_by := none }

/-- The body of the `for feature in geojson['features']` loop of
`GCPGroup.save_from_geojson`, iterated over the remaining features.
Arguments: the known usernames (the User table), the uuid supply, the pk of
the group being saved, the loop index, the GCP table, the ids saved so far,
and the remaining features.  Returns the new GCP table, the ids for which
`gcp.save()` ran, and an escaping exception if one was raised.

One deliberate simplification: when the pixel pairs agree and the stored
`geom` is null, the Python would raise from `new_geom.equals(None)`; that
state is unreachable through this code (a GCP fresh from `get_or_create` has
null pixels, so the pixel test short-circuits), and the model instead treats
a null `geom` as differing. -/
def process_features (users : List String) (fresh : Nat → String) (grp : Nat) :
    Nat → List GCP → List String → List Feature →
      List GCP × List String × Option Exc
  | _, table, saved, [] => (table, saved, none)
  | n, table, saved, f :: rest =>
    let idStr := f.id.getD (fresh n)
    if f.username ∈ users then
      let found := table.find? (fun g => g.id == idStr)
      let table1 :=
        match found with
        | some _ => table
        | none => table ++ [fresh_gcp idStr grp f.username]
      let gcp :=
        match found with
        | some g => g
        | none => fresh_gcp idStr grp f.username
      if gcp_unchanged f gcp then
        process_features users fresh grp (n + 1) table1 saved rest
      else
        process_features users fresh grp (n + 1)
          (table1.map (fun g => if g.id = idStr then updated_gcp f gcp else g))
          (saved ++ [idStr]) rest
    else
      (table, saved, some userDoesNotExist)

/-- Result of `GCPGroup.save_from_geojson`: the (always-written) group row,
the resulting GCP table, the ids that were written by `gcp.save()`, and an
exception that escaped mid-run, if any (the work done before it persists). -/
structure SaveResult where
  group : GCPGroup
  table : List GCP
  saved : List String
  err : Option Exc
deriving DecidableEq

/-- `GCPGroup.save_from_geojson(geojson, document, transformation)`
(georeference/models.py).  `priorGroup` is the group row for this document
if one exists (`get_or_create`); `freshGroupPk` is the pk a newly created
group would receive; `geojson` is `None` or the feature list.  The group row
is saved first with `crs_epsg = 3857`; then GCPs of this group whose id is
absent from the incoming ids are deleted; then each feature is processed by
`process_features`. -/
def save_from_geojson (users : List String) (fresh : Nat → String)
    (freshGroupPk : Nat) (priorGroup : Option GCPGroup) (table : List GCP)
    (geojson : Option (List Feature)) (document : Nat)
    (transformation : Option String) : SaveResult :=
  let group0 :=
    match priorGroup with
    | some gr => gr
    | none => { pk := freshGroupPk, document := document, crs_epsg := none,
                transformation := none }
  let group := { group0 with crs_epsg := some 3857, transformation := transformation }
  match geojson with
  | none => { group := group, table := table, saved := [], err := some typeError }
  | some fs =>
    let table1 := table.filter (fun g =>
      decide (g.gcp_group ≠ group.pk ∨ some g.id ∈ fs.map Feature.id))
    let r := process_features users fresh group.pk 0 table1 [] fs
    { group := group, table := r.1, saved := r.2.1, err := r.2.2 }

/-- `GCPGroup.as_geojson`, per GCP: reads the stored geometry's coordinates,
takes `lat = coords[0]` (the stored x) and `lng = coords[1]` (the stored y),
and emits `[lng, lat]`; the username comes from `last_modified_by`.  Reading
a null geometry or a null modifier raises AttributeError. -/
def as_geojson_feature (g : GCP) : Except Exc FeatureOut :=
  match g.geom, g.last_modified_by with
  | some p, some u =>
    .ok { id := g.id, image := (g.pixel_x, g.pixel_y), username := u,
          note := g.note, coordinates := (p.2, p.1) }
  | _, _ => .error attributeError

/-- The feature list built by `GCPGroup.as_geojson` over a list of GCPs;
an exception while serialising one GCP discards the partial list. -/
def as_geojson_features : List GCP → Except Exc (List FeatureOut)
  | [] => .ok []
  | g :: rest =>
    match as_geojson_feature g with
    | .error e => .error e
    | .ok f =>
      match as_geojson_features rest with
      | .error e => .error e
      | .ok fs => .ok (f :: fs)

/-- `GCPGroup.gcps`: the GCP rows of this group. -/
def GCPGroup_gcps (table : List GCP) (grp : Nat) : List GCP :=
  table.filter (fun g => g.gcp_group == grp)

/-- `GCPGroup.as_geojson` for the group with pk `grp` over the GCP table. -/
def GCPGroup_as_geojson (table : List GCP) (grp : Nat) :
    Except Exc (List FeatureOut) :=
  as_geojson_features (GCPGroup_gcps table grp)

/-- A row of the `GeoreferenceSession` model (georeference/models.py).
`layer` holds the pk of the linked Layer, if any. -/
structure SessionRecord where
  document : Nat
  gcps_used : Option (List Feature)
  transformation_used : Option String
  crs_epsg_used : Option Int
  status : String
  note : Option String
  layer : Option Nat
deriving DecidableEq

/-- Django's `save(update_fields=['status'])`: only the status column of the
stored row is overwritten from the in-memory instance. -/
def save_update_fields_status (store mem : SessionRecord) : SessionRecord :=
  { store with status := mem.status }

/-- `GeoreferenceSession.update_status`: sets `self.status` on the instance
and persists it with `save(update_fields=['status'])`.  Returns the new
(stored row, in-memory instance) pair. -/
def update_status (store mem : SessionRecord) (s : String) :
    SessionRecord × SessionRecord :=
  let mem2 := { mem with status := s }
  (save_update_fields_status store mem2, mem2)

/-- A GeoNode Layer as touched by `GeoreferenceSession.run`: its pk, title,
raster content (the bytes written by `file_upload`), whether its thumbnail
was regenerated by this code, and its TKeyword workflow status. -/
structure LayerRec where
  pk : Nat
  title : String
  content : String
  thumbnail_regenerated : Bool
  tkeyword : Option String
deriving DecidableEq

/-- The persisted state read and written by `GeoreferenceSession.run`:
the session row and the in-memory instance, the document's TKeyword workflow
status and title, the `GeoreferencedDocumentLink` rows for this document
(as linked layer pks), the Layer table, the canonical `GCPGroup` row for the
document and the GCP table, and a flag recording the one-time copy of
document metadata onto a newly created layer. -/
structure RunState where
  store : SessionRecord
  mem : SessionRecord
  docStatus : String
  docTitle : String
  links : List Nat
  layers : List LayerRec
  gcpGroup : Option GCPGroup
  gcpTable : List GCP
  metaCopied : Bool
deriving DecidableEq

/-- Modelled from the spec: the collaborators of `GeoreferenceSession.run`
whose source (georeference/georeferencer.py) is not in this tree.
Spec 4.1/4.2: the transform fit is deterministic given the same control
points and kind, so `Georeferencer(...)` + `load_gcps_from_geojson` and
`make_tif` are modelled as fixed outcomes — an escaping exception or, for
`make_tif`, the produced raster content.  `freshLayerPk` is the pk
`file_upload` assigns to a newly created layer; `users`, `freshGcpId` and
`freshGroupPk` feed the embedded `save_from_geojson`. -/
structure RunEnv where
  loadGcps : Except Exc Unit
  makeTif : Except Exc String
  freshLayerPk : Nat
  users : List String
  freshGcpId : Nat → String
  freshGroupPk : Nat

/-- `self.update_status(s)` inside `run`: store and instance change together. -/
def upd (st : RunState) (s : String) : RunState :=
  let p := update_status st.store st.mem s
  { st with store := p.1, mem := p.2 }

/-- `self.save()`: the whole in-memory instance is persisted. -/
def fullSave (st : RunState) : RunState :=
  { st with store := st.mem }

/-- `TKeywordManager().set_status(self.document, s)`. -/
def setDocStatus (st : RunState) (s : String) : RunState :=
  { st with docStatus := s }

/-- `TKeywordManager().set_status(layer, s)` for the layer with pk `pk`. -/
def set_layer_tkeyword (st : RunState) (pk : Nat) (s : String) : RunState :=
  { st with layers := st.layers.map (fun l =>
      if l.pk = pk then { l with tkeyword := some s } else l) }

/-- The two identical `except Exception as e:` blocks of
`GeoreferenceSession.run`: set status to "failed", store `f"{e.message}"` as
the note, save, and revert the document to "prepared".  On Python 3 the read
of `e.message` raises AttributeError when the exception carries no such
attribute; the steps after it are then skipped and the AttributeError
escapes `run`. -/
def run_failure_handler (st : RunState) (e : Exc) :
    RunState × Except Exc (Option Nat) :=
  let st1 := upd st "failed"
  match e.message with
  | none => (st1, .error attributeError)
  | some m =>
    let st2 := { st1 with mem := { st1.mem with note := some m } }
    let st3 := fullSave st2
    let st4 := setDocStatus st3 "prepared"
    (st4, .ok none)

/-- The `GeoreferencedDocumentLink` lookup of `run`: `objects.get(document=)`
then `Layer.objects.get(pk=link.object_id)`, with both DoesNotExist cases
caught (leaving `existing_layer = None`) while MultipleObjectsReturned
escapes. -/
def get_existing_layer (st : RunState) : Except Exc (Option Nat) :=
  match st.links with
  | [] => .ok none
  | [l] => if st.layers.any (fun lr => lr.pk == l) then .ok (some l) else .ok none
  | _ => .error multipleObjectsReturned

/-- `geonode.layers.utils.file_upload(out_path, layer=existing, overwrite=True,
title=..., user=...)`: overwrites the existing layer's raster and title when
one is passed, otherwise creates a new Layer row. -/
def file_upload (st : RunState) (existing : Option Nat) (content title : String)
    (freshPk : Nat) : RunState × Nat :=
  match existing with
  | some pk =>
    ({ st with layers := st.layers.map (fun l =>
        if l.pk = pk then { l with content := content, title := title } else l) },
     pk)
  | none =>
    ({ st with layers := st.layers ++
        [{ pk := freshPk, title := title, content := content,
           thumbnail_regenerated := false, tkeyword := none }] },
     freshPk)

/-- `GeoreferenceSession.run` (georeference/models.py).  Returns the final
persisted state and either the value `run` returns (`None` on the handled
failure path, the produced layer pk on success) or an exception that escaped
`run`; side effects already persisted survive an escape. -/
def GeoreferenceSession_run (env : RunEnv) (st0 : RunState) :
    RunState × Except Exc (Option Nat) :=
  let st := setDocStatus st0 "georeferencing"
  let st := upd st "initializing georeferencer"
  match env.loadGcps with
  | .error e => run_failure_handler st e
  | .ok _ =>
    let st := upd st "georeferencing"
    match env.makeTif with
    | .error e => run_failure_handler st e
    | .ok out_content =>
      let st := upd st "creating layer"
      let title := st.docTitle.replace "," " -"
      match get_existing_layer st with
      | .error e => (st, .error e)
      | .ok existing =>
        let p := file_upload st existing out_content title env.freshLayerPk
        let st := p.1
        let layerPk := p.2
        let st :=
          match existing with
          | none => { st with links := st.links ++ [layerPk], metaCopied := true }
          | some _ =>
            let st := upd st "regenerating thumbnail"
            { st with layers := st.layers.map (fun l : LayerRec =>
                if l.pk = layerPk then { l with thumbnail_regenerated := true } else l) }
        let st := { st with mem := { st.mem with layer := some layerPk } }
        let st := upd st "saving control points"
        let r := save_from_geojson env.users env.freshGcpId env.freshGroupPk
          st.gcpGroup st.gcpTable st.mem.gcps_used st.mem.document
          st.mem.transformation_used
        let st := { st with gcpGroup := some r.group, gcpTable := r.table }
        match r.err with
        | some e => (st, .error e)
        | none =>
          let st := setDocStatus st "georeferenced"
          let st := set_layer_tkeyword st layerPk "georeferenced"
          let st := upd st "completed"
          let st := fullSave st
          (st, .ok (some layerPk))

/-- The raster content of the layer with pk `pk`, if that layer exists. -/
def layer_content (st : RunState) (pk : Nat) : Option String :=
  (st.layers.find? (fun l => l.pk == pk)).map LayerRec.content

/-- A cutline: an ordered sequence of (x, y) pixel vertices, as stored in the
`cutlines` JSON field. -/
def Cutline : Type := List (Rat × Rat)

instance : DecidableEq Cutline := by
  unfold Cutline; infer_instance

/-- A division: a closed ordered ring of pixel coordinates. -/
def Division : Type := List (Rat × Rat)

instance : DecidableEq Division := by
  unfold Division; infer_instance

/-- The ring of the full image bounds of a w × h image. -/
def fullBoundsRing (w h : Int) : Division :=
  [(0, 0), ((w : Rat), 0), ((w : Rat), (h : Rat)), (0, (h : Rat)), (0, 0)]

/-- Modelled from the spec: `Splitter.generate_divisions`
(georeference/splitter.py is not in this source tree).  Spec 4.3: each
cutline is a dividing chord across the image rectangle; the current polygon
set is repeatedly partitioned by each line in order, starting from the full
image bounds, whose partitioning is the supplied geometry primitive `step`;
zero cutlines yields a single Division equal to the full image bounds. -/
def generate_divisions (step : Cutline → List Division → List Division)
    (w h : Int) (cutlines : List Cutline) : List Division :=
  cutlines.foldl (fun polys line => step line polys) [fullBoundsRing w h]

/-- The persisted state around one `SplitEvaluation` row
(georeference/models.py): its `split_needed` and `cutlines` fields, the
parent document pk, the `SplitDocumentLink` object_ids for the parent
document, the existing child document pks, the set of documents whose
TKeyword status says they are georeferenced, the parent's workflow status and
`metadata_only` flag, and whether the row itself still exists. -/
structure SplitState where
  split_needed : Option Bool
  cutlines : Option (List Cutline)
  document : Nat
  links : List Nat
  docs : List Nat
  georeferencedDocs : List Nat
  docStatus : String
  metadata_only : Bool
  sessionExists : Bool
deriving DecidableEq

/-- `SplitEvaluation.get_children`: the Document rows whose pk appears as the
object_id of a SplitDocumentLink of this document. -/
def get_children (st : SplitState) : List Nat :=
  st.docs.filter (fun d => st.links.contains d)

/-- `SplitEvaluation.georeferenced_downstream`: when a split was made, check
the children, otherwise the document itself, against the TKeyword manager. -/
def georeferenced_downstream (st : SplitState) : Bool :=
  let docs_to_check :=
    if st.split_needed = some true then get_children st else [st.document]
  docs_to_check.any (fun d => st.georeferencedDocs.contains d)

/-- `SplitEvaluation.cleanup` (run by the pre_delete signal): when downstream
georeferencing has occurred it only logs a warning (returned as the Bool) and
proceeds; child documents are deleted when a split was made, all
SplitDocumentLinks of the document are removed, and the document is reset to
"unprepared" and `metadata_only = False`. -/
def cleanup (st : SplitState) : SplitState × Bool :=
  let warned := georeferenced_downstream st
  let st1 :=
    if st.split_needed = some true then
      { st with docs := st.docs.filter (fun d => !(st.links.contains d)) }
    else st
  let st2 := { st1 with links := ([] : List Nat) }
  let st3 := { st2 with docStatus := "unprepared", metadata_only := false }
  (st3, warned)

/-- Deleting a `SplitEvaluation` row: Django's pre_delete signal invokes
`cleanup`, then the row is removed. -/
def delete_split_evaluation (st : SplitState) : SplitState × Bool :=
  let p := cleanup st
  ({ p.1 with sessionExists := false }, p.2)

/-- `SplitEvaluation.preview_divisions`: an absent (null) cutline set yields
the empty list without consulting the splitter; otherwise the stored
cutlines are handed to `Splitter.generate_divisions`. -/
def preview_divisions (step : Cutline → List Division → List Division)
    (w h : Int) (st : SplitState) : List Division :=
  match st.cutlines with
  | none => []
  | some cl => generate_divisions step w h cl

/-- The preview branch of `SplitView.post` (georeference/views.py): the
request body's "lines" key defaults to the empty list, which is handed to
`Splitter.generate_divisions`. -/
def split_view_post_preview (step : Cutline → List Division → List Division)
    (w h : Int) (lines : Option (List Cutline)) : List Division :=
  generate_divisions step w h (lines.getD [])

/-- The session-engine error observed by a rejected concurrent attempt. -/
inductive SessionError
  | Locked
deriving DecidableEq

/-- The per-subject lock fields added by migration 0007_auto_20221118_1939:
`lock_enabled` (BooleanField, default False) and `lock_details` (JSONField,
here the holding user). -/
structure SubjectLock where
  lock_enabled : Bool
  lock_details : Option Nat
deriving DecidableEq

/-- Modelled from the spec: the lock acquisition step of the session engine's
`run()` (georeference/models/sessions.py is not in this source tree; only
migration 0007 declaring `lock_enabled`/`lock_details` is).  Spec 5: `run()`
atomically checks and acquires the subject lock (test-and-set); a holder
already present makes the attempt fail with `SessionError::Locked`. -/
def tryAcquireLock (l : SubjectLock) (user : Nat) :
    Except SessionError Unit × SubjectLock :=
  if l.lock_enabled then (.error .Locked, l)
  else (.ok (), { lock_enabled := true, lock_details := some user })

/-- Phase of one `run()` attempt: not yet at the lock, holding the lock while
the variant-specific work executes, rejected with Locked, or finished (work
done and lock released). -/
inductive ProcPhase
  | idle
  | acquired
  | rejected
  | done
deriving DecidableEq

/-- Two `run()` attempts for sessions on the same subject, sharing that
subject's lock. -/
structure TwoRunState where
  lock : SubjectLock
  p1 : ProcPhase
  p2 : ProcPhase
deriving DecidableEq

/-- One atomic step of a single `run()` attempt: from idle, the test-and-set
(its whole check-and-acquire is one atomic step); from acquired, the
variant-specific work completes and the lock is released. -/
def stepProc (l : SubjectLock) (user : Nat) (ph : ProcPhase) :
    SubjectLock × ProcPhase :=
  match ph with
  | .idle =>
    match tryAcquireLock l user with
    | (.ok _, l2) => (l2, .acquired)
    | (.error _, l2) => (l2, .rejected)
  | .acquired => ({ lock_enabled := false, lock_details := none }, .done)
  | ph2 => (l, ph2)

/-- An interleaving step of the two attempts: `true` schedules the first. -/
def stepSys (s : TwoRunState) (which : Bool) : TwoRunState :=
  if which then
    let p := stepProc s.lock 1 s.p1
    { lock := p.1, p1 := p.2, p2 := s.p2 }
  else
    let p := stepProc s.lock 2 s.p2
    { lock := p.1, p1 := s.p1, p2 := p.2 }

/-- Execution of an arbitrary interleaving of the two attempts. -/
def execSys (s : TwoRunState) (sched : List Bool) : TwoRunState :=
  sched.foldl stepSys s

/-- The mutual-exclusion invariant: the two attempts never both hold the
lock, and an attempt holding it implies the lock is recorded as enabled. -/
def lockInv (s : TwoRunState) : Prop :=
  (¬ (s.p1 = .acquired ∧ s.p2 = .acquired)) ∧
    ((s.p1 = .acquired ∨ s.p2 = .acquired) → s.lock.lock_enabled = true)

/-- One operation dispatched by the sessions management command on a session. -/
inductive SessionOp
  | runOp
  | undoOp (keep_session : Bool)
deriving DecidableEq

/-- The run/undo/redo dispatch of `Command.handle`
(georeference/management/commands/sessions.py), keyed on the session's
type discriminant ("p" for PrepSession, "g" for GeorefSession, "t" for
TrimSession): redo on a preparation session performs `undo(keep_session=True)`
then `run()`; redo on the other kinds is a plain `run()` because their
outputs are reliably overwritten; any unknown operation dispatches nothing. -/
def handle_session_ops (operation : String) (stype : String) : List SessionOp :=
  if operation = "run" then [.runOp]
  else if operation = "redo" then
    if stype = "p" then [.undoOp true, .runOp] else [.runOp]
  else if operation = "undo" then [.undoOp false]
  else []

theorem lockInv_step (s : TwoRunState) (w : Bool) (h : lockInv s) :
    lockInv (stepSys s w) := by
  obtain ⟨⟨en, det⟩, p1, p2⟩ := s
  obtain ⟨h1, h2⟩ := h
  cases w <;> cases p1 <;> cases p2 <;> cases en <;>
    simp_all [stepSys, stepProc, tryAcquireLock, lockInv]

theorem lockInv_exec (sched : List Bool) :
    ∀ s : TwoRunState, lockInv s → lockInv (execSys s sched) := by
  induction sched with
  | nil => intro s h; exact h
  | cons w ws ih =>
    intro s h
    exact ih (stepSys s w) (lockInv_step s w h)

/-- C2: two run() invocations for sessions on the same subject never execute
concurrently.  The lock acquisition is a single atomic test-and-set step:
from a free lock, an attempt acquires it and a second attempt made before
release observes SessionError::Locked (in either order of the two attempts),
and along every interleaving of two attempts starting from a free lock the
two are never simultaneously in their critical section. -/
theorem C2_lock_test_and_set :
    (∀ (l : SubjectLock) (u1 u2 : Nat), l.lock_enabled = false →
      (tryAcquireLock l u1).1 = .ok () ∧
      (tryAcquireLock ((tryAcquireLock l u1).2) u2).1 = .error .Locked) ∧
    (∀ (s0 : TwoRunState) (sched : List Bool),
      s0.lock.lock_enabled = false → s0.p1 = .idle → s0.p2 = .idle →
      ¬ ((execSys s0 sched).p1 = .acquired ∧ (execSys s0 sched).p2 = .acquired)) := by
  constructor
  · intro l u1 u2 hl
    constructor
    · simp [tryAcquireLock, hl]
    · simp [tryAcquireLock, hl]
  · intro s0 sched h1 h2 h3
    have h : lockInv (execSys s0 sched) := by
      refine lockInv_exec sched s0 ⟨?_, ?_⟩
      · simp [h2, h3]
      · simp [h2, h3]
    exact h.1

theorem C2_lock_test_and_set_witness :
    ((tryAcquireLock { lock_enabled := false, lock_details := none } 1).1 = .ok () ∧
      (tryAcquireLock ((tryAcquireLock { lock_enabled := false, lock_details := none } 1).2) 2).1
        = .error .Locked) ∧
    ¬ ((execSys { lock := { lock_enabled := false, lock_details := none },
                  p1 := .idle, p2 := .idle } [true, false]).p1 = .acquired ∧
       (execSys { lock := { lock_enabled := false, lock_details := none },
                  p1 := .idle, p2 := .idle } [true, false]).p2 = .acquired) := by
  refine ⟨C2_lock_test_and_set.1 { lock_enabled := false, lock_details := none } 1 2 rfl,
    C2_lock_test_and_set.2
      { lock := { lock_enabled := false, lock_details := none },
        p1 := .idle, p2 := .idle }
      [true, false] rfl rfl rfl⟩

/-- C6: the redo operation of the sessions management command dispatches by
session variant: a Preparation session (type "p") performs
undo(keep_session=True) followed by run(); Georeference ("g") and Trim ("t")
sessions perform a plain run() with no preceding undo. -/
theorem C6_redo_dispatch :
    handle_session_ops "redo" "p" = [.undoOp true, .runOp] ∧
    handle_session_ops "redo" "g" = [.runOp] ∧
    handle_session_ops "redo" "t" = [.runOp] := by
  decide

/-- C8: the target CRS is fixed at EPSG:3857: whatever the incoming feature
collection, the prior group row, the transformation kind, or anything else
supplied by the caller, the group row persisted by save_from_geojson carries
crs_epsg = 3857 (the group row is written before the point loop, so this
holds even when the rest of the call raises). -/
theorem C8_crs_epsg_fixed (users : List String) (fresh : Nat → String)
    (freshGroupPk : Nat) (priorGroup : Option GCPGroup) (table : List GCP)
    (geojson : Option (List Feature)) (document : Nat)
    (transformation : Option String) :
    (save_from_geojson users fresh freshGroupPk priorGroup table geojson
      document transformation).group.crs_epsg = some 3857 := by
  unfold save_from_geojson
  cases geojson <;> cases priorGroup <;> rfl

/-- C10: GeoreferenceSession.update_status persists only the status column:
the stored row's status becomes the new value while its document, gcps_used,
transformation_used, crs_epsg_used, note and layer columns keep their stored
values, whatever unsaved modifications the in-memory instance holds. -/
theorem C10_update_status_frame (store mem : SessionRecord) (s : String) :
    (update_status store mem s).1.status = s ∧
    (update_status store mem s).1.document = store.document ∧
    (update_status store mem s).1.gcps_used = store.gcps_used ∧
    (update_status store mem s).1.transformation_used = store.transformation_used ∧
    (update_status store mem s).1.crs_epsg_used = store.crs_epsg_used ∧
    (update_status store mem s).1.note = store.note ∧
    (update_status store mem s).1.layer = store.layer :=
  ⟨rfl, rfl, rfl, rfl, rfl, rfl, rfl⟩

/-- C1: evaluation of GeoreferenceSession.run at a failing input.  When
loading the control points raises a Python-3 builtin exception (here a
RuntimeError, which carries no `message` attribute), the failure path itself
raises: the handler persists status "failed" but the read of `e.message`
raises AttributeError, so the error note is never stored (it keeps its prior
value) and the document's workflow status is left at "georeferencing"
instead of being reverted to "prepared". -/
theorem C1_failure_path_raises :
    (GeoreferenceSession_run
      { loadGcps := .error { ename := "RuntimeError", message := none },
        makeTif := .ok "warped-bytes", freshLayerPk := 7, users := ["alice"],
        freshGcpId := fun _ => "uuid-0", freshGroupPk := 3 }
      { store := { document := 11, gcps_used := some [],
                   transformation_used := some "poly1",
                   crs_epsg_used := some 3857, status := "initializing",
                   note := some "prior note", layer := none },
        mem := { document := 11, gcps_used := some [],
                 transformation_used := some "poly1",
                 crs_epsg_used := some 3857, status := "initializing",
                 note := some "prior note", layer := none },
        docStatus := "prepared", docTitle := "Doc", links := [], layers := [],
        gcpGroup := none, gcpTable := [], metaCopied := false }).2
      = .error attributeError ∧
    (GeoreferenceSession_run
      { loadGcps := .error { ename := "RuntimeError", message := none },
        makeTif := .ok "warped-bytes", freshLayerPk := 7, users := ["alice"],
        freshGcpId := fun _ => "uuid-0", freshGroupPk := 3 }
      { store := { document := 11, gcps_used := some [],
                   transformation_used := some "poly1",
                   crs_epsg_used := some 3857, status := "initializing",
                   note := some "prior note", layer := none },
        mem := { document := 11, gcps_used := some [],
                 transformation_used := some "poly1",
                 crs_epsg_used := some 3857, status := "initializing",
                 note := some "prior note", layer := none },
        docStatus := "prepared", docTitle := "Doc", links := [], layers := [],
        gcpGroup := none, gcpTable := [], metaCopied := false }).1.store.status
      = "failed" ∧
    (GeoreferenceSession_run
      { loadGcps := .error { ename := "RuntimeError", message := none },
        makeTif := .ok "warped-bytes", freshLayerPk := 7, users := ["alice"],
        freshGcpId := fun _ => "uuid-0", freshGroupPk := 3 }
      { store := { document := 11, gcps_used := some [],
                   transformation_used := some "poly1",
                   crs_epsg_used := some 3857, status := "initializing",
                   note := some "prior note", layer := none },
        mem := { document := 11, gcps_used := some [],
                 transformation_used := some "poly1",
                 crs_epsg_used := some 3857, status := "initializing",
                 note := some "prior note", layer := none },
        docStatus := "prepared", docTitle := "Doc", links := [], layers := [],
        gcpGroup := none, gcpTable := [], metaCopied := false }).1.store.note
      = some "prior note" ∧
    (GeoreferenceSession_run
      { loadGcps := .error { ename := "RuntimeError", message := none },
        makeTif := .ok "warped-bytes", freshLayerPk := 7, users := ["alice"],
        freshGcpId := fun _ => "uuid-0", freshGroupPk := 3 }
      { store := { document := 11, gcps_used := some [],
                   transformation_used := some "poly1",
                   crs_epsg_used := some 3857, status := "initializing",
                   note := some "prior note", layer := none },
        mem := { document := 11, gcps_used := some [],
                 transformation_used := some "poly1",
                 crs_epsg_used := some 3857, status := "initializing",
                 note := some "prior note", layer := none },
        docStatus := "prepared", docTitle := "Doc", links := [], layers := [],
        gcpGroup := none, gcpTable := [], metaCopied := false }).1.docStatus
      = "georeferencing" :=
  ⟨rfl, rfl, rfl, rfl⟩

/-- C7 counterexample: a SplitEvaluation whose cutline set is absent (null)
yields the empty division list from preview_divisions, not a single Division
equal to the full image bounds. -/
theorem C7_counterexample :
    preview_divisions (fun _ polys => polys) 1000 800
      { split_needed := none, cutlines := none, document := 1, links := [],
        docs := [], georeferencedDocs := [], docStatus := "unprepared",
        metadata_only := false, sessionExists := true } = ([] : List Division) ∧
    ([] : List Division) ≠ [fullBoundsRing 1000 800] := by
  exact ⟨rfl, by decide⟩

/-- C7 amended: computing divisions from an empty cutline list yields exactly
one Division equal to the full image bounds — both through
preview_divisions on stored cutlines and through the SplitView preview branch,
where an absent "lines" key defaults to the empty list — while a stored
absent (null) cutline set yields no divisions at all. -/
theorem C7_empty_cutlines (step : Cutline → List Division → List Division)
    (w h : Int) (st : SplitState) :
    (st.cutlines = some [] → preview_divisions step w h st = [fullBoundsRing w h]) ∧
    (st.cutlines = none → preview_divisions step w h st = []) ∧
    split_view_post_preview step w h none = [fullBoundsRing w h] := by
  refine ⟨?_, ?_, ?_⟩
  · intro hc
    simp [preview_divisions, hc, generate_divisions]
  · intro hc
    simp [preview_divisions, hc]
  · simp [split_view_post_preview, generate_divisions]

theorem C7_empty_cutlines_witness :
    preview_divisions (fun _ polys => polys) 1000 800
      { split_needed := some false, cutlines := some [], document := 1,
        links := [], docs := [], georeferencedDocs := [],
        docStatus := "unprepared", metadata_only := false,
        sessionExists := true } = [fullBoundsRing 1000 800] ∧
    split_view_post_preview (fun _ polys => polys) 1000 800 none
      = [fullBoundsRing 1000 800] :=
  ⟨(C7_empty_cutlines (fun _ polys => polys) 1000 800
      { split_needed := some false, cutlines := some [], document := 1,
        links := [], docs := [], georeferencedDocs := [],
        docStatus := "unprepared", metadata_only := false,
        sessionExists := true }).1 rfl,
   (C7_empty_cutlines (fun _ polys => polys) 1000 800
      { split_needed := some false, cutlines := some [], document := 1,
        links := [], docs := [], georeferencedDocs := [],
        docStatus := "unprepared", metadata_only := false,
        sessionExists := true }).2.2⟩

/-- C3 counterexample: a SplitEvaluation whose split children have been
georeferenced downstream is nonetheless physically deleted, and the deletion
removes the child documents and links: deletion is not blocked by downstream
references. -/
theorem C3_counterexample :
    georeferenced_downstream
      { split_needed := some true, cutlines := some [], document := 1,
        links := [2], docs := [2], georeferencedDocs := [2],
        docStatus := "split", metadata_only := true, sessionExists := true }
      = true ∧
    (delete_split_evaluation
      { split_needed := some true, cutlines := some [], document := 1,
        links := [2], docs := [2], georeferencedDocs := [2],
        docStatus := "split", metadata_only := true, sessionExists := true }).1.sessionExists
      = false ∧
    (delete_split_evaluation
      { split_needed := some true, cutlines := some [], document := 1,
        links := [2], docs := [2], georeferencedDocs := [2],
        docStatus := "split", metadata_only := true, sessionExists := true }).1.docs
      = [] ∧
    (delete_split_evaluation
      { split_needed := some true, cutlines := some [], document := 1,
        links := [2], docs := [2], georeferencedDocs := [2],
        docStatus := "split", metadata_only := true, sessionExists := true }).1.links
      = [] := by
  refine ⟨rfl, rfl, by decide, rfl⟩

/-- C3 amended: deleting a SplitEvaluation is always performed, whether or
not downstream artifacts reference its output — when they do, only a warning
is logged — and the deletion cascades the compensating cleanup: child
documents are removed when a split was made (and the document table is
untouched otherwise), all split links are removed, and the subject is reset
to "unprepared" and not metadata-only. -/
theorem C3_cleanup_cascade (st : SplitState) :
    (delete_split_evaluation st).1.sessionExists = false ∧
    (delete_split_evaluation st).2 = georeferenced_downstream st ∧
    (delete_split_evaluation st).1.links = [] ∧
    (delete_split_evaluation st).1.docStatus = "unprepared" ∧
    (delete_split_evaluation st).1.metadata_only = false ∧
    (st.split_needed = some true →
      ∀ d ∈ st.links, d ∉ (delete_split_evaluation st).1.docs) ∧
    (st.split_needed ≠ some true →
      (delete_split_evaluation st).1.docs = st.docs) := by
  refine ⟨rfl, rfl, ?_, ?_, ?_, ?_, ?_⟩
  · simp only [delete_split_evaluation, cleanup]
  · simp only [delete_split_evaluation, cleanup]
  · simp only [delete_split_evaluation, cleanup]
  · intro hs d hd
    simp only [delete_split_evaluation, cleanup, hs, if_pos]
    simp [hd]
  · intro hs
    simp only [delete_split_evaluation, cleanup, if_neg hs]

theorem C3_cleanup_cascade_witness :
    (delete_split_evaluation
      { split_needed := some true, cutlines := some [], document := 1,
        links := [5], docs := [5, 9], georeferencedDocs := [5],
        docStatus := "split", metadata_only := true, sessionExists := true }).1.sessionExists
      = false ∧
    (delete_split_evaluation
      { split_needed := some true, cutlines := some [], document := 1,
        links := [5], docs := [5, 9], georeferencedDocs := [5],
        docStatus := "split", metadata_only := true, sessionExists := true }).2
      = georeferenced_downstream
        { split_needed := some true, cutlines := some [], document := 1,
          links := [5], docs := [5, 9], georeferencedDocs := [5],
          docStatus := "split", metadata_only := true, sessionExists := true } ∧
    5 ∉ (delete_split_evaluation
      { split_needed := some true, cutlines := some [], document := 1,
        links := [5], docs := [5, 9], georeferencedDocs := [5],
        docStatus := "split", metadata_only := true, sessionExists := true }).1.docs :=
  ⟨(C3_cleanup_cascade
      { split_needed := some true, cutlines := some [], document := 1,
        links := [5], docs := [5, 9], georeferencedDocs := [5],
        docStatus := "split", metadata_only := true, sessionExists := true }).1,
   (C3_cleanup_cascade
      { split_needed := some true, cutlines := some [], document := 1,
        links := [5], docs := [5, 9], georeferencedDocs := [5],
        docStatus := "split", metadata_only := true, sessionExists := true }).2.1,
   (C3_cleanup_cascade
      { split_needed := some true, cutlines := some [], document := 1,
        links := [5], docs := [5, 9], georeferencedDocs := [5],
        docStatus := "split", metadata_only := true, sessionExists := true }).2.2.2.2.2.1
     rfl 5 (by decide)⟩

/-- C9: round-trip through the axis swap.  A GCP stored by save_from_geojson
from a feature with geometry coordinates [lng, lat] is returned by
as_geojson with the same id, the same pixel pair and the same [lng, lat]
coordinates: the stored Point is built with its axes swapped (Point(lat,
lng)) and as_geojson swaps them back. -/
theorem C9_gcp_roundtrip (f : Feature) (i : String) (users : List String)
    (fresh : Nat → String) (fpk document : Nat) (t : Option String)
    (hid : f.id = some i) (hu : f.username ∈ users) :
    GCPGroup_as_geojson
      (save_from_geojson users fresh fpk none [] (some [f]) document t).table
      (save_from_geojson users fresh fpk none [] (some [f]) document t).group.pk
      = .ok [{ id := i, image := (some f.image.1, some f.image.2),
               username := f.username, note := none,
               coordinates := f.coordinates }] := by
  simp [save_from_geojson, process_features, hid, hu, GCPGroup_as_geojson,
        GCPGroup_gcps, as_geojson_features, as_geojson_feature, gcp_unchanged,
        updated_gcp, newGeomOf, fresh_gcp]

theorem C9_gcp_roundtrip_witness :
    GCPGroup_as_geojson
      (save_from_geojson ["alice"] (fun _ => "uuid-0") 3 none []
        (some [{ id := some "g1", username := "alice", image := (10, 20),
                 coordinates := (45, -30) }]) 11 (some "poly1")).table
      (save_from_geojson ["alice"] (fun _ => "uuid-0") 3 none []
        (some [{ id := some "g1", username := "alice", image := (10, 20),
                 coordinates := (45, -30) }]) 11 (some "poly1")).group.pk
      = .ok [{ id := "g1", image := (some 10, some 20), username := "alice",
               note := none, coordinates := (45, -30) }] :=
  C9_gcp_roundtrip
    { id := some "g1", username := "alice", image := (10, 20),
      coordinates := (45, -30) }
    "g1" ["alice"] (fun _ => "uuid-0") 3 11 (some "poly1") rfl (by decide)

theorem find_id_of_mem_nodup (g : GCP) :
    ∀ table : List GCP, g ∈ table → (table.map GCP.id).Nodup →
      table.find? (fun x => x.id == g.id) = some g := by
  intro table
  induction table with
  | nil => intro h; cases h
  | cons a t ih =>
    intro hmem hnd
    rw [List.map_cons, List.nodup_cons] at hnd
    rcases List.mem_cons.mp hmem with h | h
    · subst h
      exact List.find?_cons_of_pos _ (by simp)
    · have hne : (a.id == g.id) = false := by
        rw [beq_eq_false_iff_ne]
        intro he
        exact hnd.1 (he ▸ List.mem_map_of_mem GCP.id h)
      rw [List.find?_cons, hne]
      exact ih h hnd.2

theorem find_id_eq_none (i : String) (table : List GCP)
    (h : i ∉ table.map GCP.id) :
    table.find? (fun x => x.id == i) = none := by
  rw [List.find?_eq_none]
  intro x hx
  simp only [beq_iff_eq]
  intro he
  exact h (he ▸ List.mem_map_of_mem GCP.id hx)

theorem mem_resolved_of_explicit (fresh : Nat → String) (i : String) :
    ∀ (fs : List Feature) (n : Nat) (f : Feature), f ∈ fs → f.id = some i →
      i ∈ resolved_ids fresh n fs := by
  intro fs
  induction fs with
  | nil => intro n f h; cases h
  | cons f0 rest ih =>
    intro n f hmem hid
    rcases List.mem_cons.mp hmem with h | h
    · subst h
      simp [resolved_ids, hid]
    · exact List.mem_cons_of_mem _ (ih (n + 1) f h hid)

theorem resolved_mem_cases (fresh : Nat → String) (i : String) :
    ∀ (fs : List Feature) (n : Nat), i ∈ resolved_ids fresh n fs →
      some i ∈ fs.map Feature.id ∨
        ∃ m, n ≤ m ∧ m < n + fs.length ∧ i = fresh m := by
  intro fs
  induction fs with
  | nil => intro n h; cases h
  | cons f0 rest ih =>
    intro n h
    rw [resolved_ids] at h
    rcases List.mem_cons.mp h with h0 | h0
    · cases hid : f0.id with
      | some j =>
        left
        rw [hid] at h0
        simp only [Option.getD_some] at h0
        subst h0
        simp [hid]
      | none =>
        right
        refine ⟨n, le_refl n, by simp, ?_⟩
        rw [hid] at h0
        simpa using h0
    · rcases ih (n + 1) h0 with hc | ⟨m, hm1, hm2, hm3⟩
      · left
        simp only [List.map_cons, List.mem_cons]
        exact Or.inr (by simpa using hc)
      · right
        refine ⟨m, by omega, ?_, hm3⟩
        simp only [List.length_cons]
        omega

theorem pf_err_none (users : List String) (fresh : Nat → String)
    (fs : List Feature) (hu : ∀ f ∈ fs, f.username ∈ users) :
    ∀ (grp : Nat) (n : Nat) (table : List GCP) (saved : List String),
      (process_features users fresh grp n table saved fs).2.2 = none := by
  induction fs with
  | nil => intro grp n table saved; rfl
  | cons f rest ih =>
    intro grp n table saved
    have hu0 : f.username ∈ users := hu f (List.mem_cons_self f rest)
    have hur : ∀ f2 ∈ rest, f2.username ∈ users :=
      fun f2 h2 => hu f2 (List.mem_cons_of_mem f h2)
    simp only [process_features, if_pos hu0]
    cases hfind : table.find? (fun g => g.id == f.id.getD (fresh n)) with
    | some gf =>
      simp only [hfind]
      by_cases hch : gcp_unchanged f gf
      · rw [if_pos hch]; exact ih hur grp (n + 1) table saved
      · rw [if_neg hch]; exact ih hur grp (n + 1) _ _
    | none =>
      simp only [hfind]
      split
      · exact ih hur grp (n + 1) _ _
      · exact ih hur grp (n + 1) _ _

theorem replace_map_ids (f : Feature) (gc : GCP) (i : String) (hgc : gc.id = i)
    (table : List GCP) :
    (table.map (fun g => if g.id = i then updated_gcp f gc else g)).map GCP.id
      = table.map GCP.id := by
  rw [List.map_map]
  apply List.map_congr_left
  intro x hx
  by_cases hxe : x.id = i
  · simp only [Function.comp_apply, if_pos hxe]
    show gc.id = x.id
    rw [hgc, hxe]
  · simp [Function.comp_apply, if_neg hxe]

theorem replace_map_mem_self (f : Feature) (gc : GCP) (i : String)
    (table : List GCP) (g : GCP) (hg : g ∈ table) (hne : g.id ≠ i) :
    g ∈ table.map (fun x => if x.id = i then updated_gcp f gc else x) := by
  have h2 := List.mem_map_of_mem
    (fun x => if x.id = i then updated_gcp f gc else x) hg
  have h3 : (fun x => if x.id = i then updated_gcp f gc else x) g = g :=
    if_neg hne
  rw [h3] at h2
  exact h2

theorem replace_map_mem_updated (f : Feature) (gc : GCP) (i : String)
    (table : List GCP) (hgc : gc.id = i) (hmem : gc ∈ table) :
    updated_gcp f gc ∈
      table.map (fun x => if x.id = i then updated_gcp f gc else x) := by
  have h2 := List.mem_map_of_mem
    (fun x => if x.id = i then updated_gcp f gc else x) hmem
  have h3 : (fun x => if x.id = i then updated_gcp f gc else x) gc
      = updated_gcp f gc := if_pos hgc
  rw [h3] at h2
  exact h2

theorem append_fresh_nodup (table : List GCP) (g0 : GCP)
    (hnd : (table.map GCP.id).Nodup) (hnotin : g0.id ∉ table.map GCP.id) :
    ((table ++ [g0]).map GCP.id).Nodup := by
  rw [List.map_append]
  rw [List.nodup_append]
  refine ⟨hnd, by simp, ?_⟩
  intro a ha hb
  simp only [List.map_cons, List.map_nil, List.mem_singleton] at hb
  exact hnotin (hb ▸ ha)

theorem not_unchanged_fresh (f : Feature) (i : String) (grp : Nat) (u : String) :
    ¬ gcp_unchanged f (fresh_gcp i grp u) := by
  simp [gcp_unchanged, fresh_gcp]

theorem fresh_gcp_id (i : String) (grp : Nat) (u : String) :
    (fresh_gcp i grp u).id = i := rfl

theorem pf_main (users : List String) (fresh : Nat → String) (grp : Nat)
    (fs : List Feature) :
    ∀ (n : Nat) (table : List GCP) (saved : List String),
      (∀ f ∈ fs, f.username ∈ users) →
      (table.map GCP.id).Nodup →
      (resolved_ids fresh n fs).Nodup →
      ((process_features users fresh grp n table saved fs).1.map GCP.id).Nodup ∧
      (∀ i ∈ (process_features users fresh grp n table saved fs).1.map GCP.id,
        i ∈ table.map GCP.id ∨ i ∈ resolved_ids fresh n fs) ∧
      (∀ g ∈ table, g.id ∉ resolved_ids fresh n fs →
        g ∈ (process_features users fresh grp n table saved fs).1 ∧
        (g.id ∈ (process_features users fresh grp n table saved fs).2.1 ↔
          g.id ∈ saved)) ∧
      (∀ i ∈ resolved_ids fresh n fs,
        ∃ g2, g2 ∈ (process_features users fresh grp n table saved fs).1 ∧
          g2.id = i ∧ (i ∉ table.map GCP.id → g2.gcp_group = grp)) := by
  induction fs with
  | nil =>
    intro n table saved _ hnd _
    refine ⟨hnd, fun i hi => Or.inl hi, fun g hg _ => ⟨hg, Iff.rfl⟩, ?_⟩
    intro i hi
    simp [resolved_ids] at hi
  | cons f rest ih =>
    intro n table saved hu hnd hres
    have hu0 : f.username ∈ users := hu f (List.mem_cons_self f rest)
    have hur : ∀ f2 ∈ rest, f2.username ∈ users :=
      fun f2 h2 => hu f2 (List.mem_cons_of_mem f h2)
    rw [resolved_ids, List.nodup_cons] at hres
    obtain ⟨hres1, hres2⟩ := hres
    simp only [process_features, if_pos hu0, resolved_ids]
    cases hfind : table.find? (fun g => g.id == f.id.getD (fresh n)) with
    | some gf =>
      simp only [hfind]
      have hgfid : gf.id = f.id.getD (fresh n) := by
        have hp := List.find?_some hfind
        simpa using hp
      have hgfmem : gf ∈ table := List.mem_of_find?_eq_some hfind
      by_cases hch : gcp_unchanged f gf
      · rw [if_pos hch]
        obtain ⟨ihn, ihsub, ihold, ihnew⟩ := ih (n + 1) table saved hur hnd hres2
        refine ⟨ihn, ?_, ?_, ?_⟩
        · intro i hi
          rcases ihsub i hi with h | h
          · exact Or.inl h
          · exact Or.inr (List.mem_cons_of_mem _ h)
        · intro g hg hgres
          rw [List.mem_cons] at hgres
          push_neg at hgres
          exact ihold g hg hgres.2
        · intro i hi
          rcases List.mem_cons.mp hi with hi | hi
          · subst hi
            refine ⟨gf, (ihold gf hgfmem (hgfid ▸ hres1)).1, hgfid, ?_⟩
            intro hnot
            exact absurd (hgfid ▸ List.mem_map_of_mem GCP.id hgfmem) hnot
          · exact ihnew i hi
      · rw [if_neg hch]
        have hids2 := replace_map_ids f gf (f.id.getD (fresh n)) hgfid table
        have hnd2 : ((table.map (fun g =>
            if g.id = f.id.getD (fresh n) then updated_gcp f gf else g)).map
              GCP.id).Nodup := by
          rw [hids2]; exact hnd
        obtain ⟨ihn, ihsub, ihold, ihnew⟩ :=
          ih (n + 1) _ (saved ++ [f.id.getD (fresh n)]) hur hnd2 hres2
        refine ⟨ihn, ?_, ?_, ?_⟩
        · intro i hi
          rcases ihsub i hi with h | h
          · exact Or.inl (hids2 ▸ h)
          · exact Or.inr (List.mem_cons_of_mem _ h)
        · intro g hg hgres
          rw [List.mem_cons] at hgres
          push_neg at hgres
          have hg2 := replace_map_mem_self f gf (f.id.getD (fresh n)) table g hg hgres.1
          obtain ⟨hm, hiff⟩ := ihold g hg2 hgres.2
          refine ⟨hm, hiff.trans ?_⟩
          simp [List.mem_append, hgres.1]
        · intro i hi
          rcases List.mem_cons.mp hi with hi | hi
          · subst hi
            have hup := replace_map_mem_updated f gf (f.id.getD (fresh n)) table hgfid hgfmem
            have hupid : (updated_gcp f gf).id = f.id.getD (fresh n) := hgfid
            refine ⟨updated_gcp f gf, (ihold _ hup (hupid ▸ hres1)).1, hupid, ?_⟩
            intro hnot
            exact absurd (hgfid ▸ List.mem_map_of_mem GCP.id hgfmem) hnot
          · obtain ⟨g2, hm, hid2, hgrp⟩ := ihnew i hi
            refine ⟨g2, hm, hid2, fun hnot => hgrp ?_⟩
            rw [hids2]
            exact hnot
    | none =>
      simp only [hfind]
      have hnotin : f.id.getD (fresh n) ∉ table.map GCP.id := by
        intro hmem
        obtain ⟨x, hx, hxe⟩ := List.mem_map.mp hmem
        have hq := List.find?_eq_none.mp hfind x hx
        simp [hxe] at hq
      rw [if_neg (not_unchanged_fresh f (f.id.getD (fresh n)) grp f.username)]
      have hnd1 := append_fresh_nodup table
        (fresh_gcp (f.id.getD (fresh n)) grp f.username) hnd hnotin
      have hids2 := replace_map_ids f
        (fresh_gcp (f.id.getD (fresh n)) grp f.username)
        (f.id.getD (fresh n)) rfl
        (table ++ [fresh_gcp (f.id.getD (fresh n)) grp f.username])
      have hnd2 : (((table ++ [fresh_gcp (f.id.getD (fresh n)) grp f.username]).map
          (fun g => if g.id = f.id.getD (fresh n) then
            updated_gcp f (fresh_gcp (f.id.getD (fresh n)) grp f.username)
            else g)).map GCP.id).Nodup := by
        rw [hids2]
        exact hnd1
      obtain ⟨ihn, ihsub, ihold, ihnew⟩ :=
        ih (n + 1) _ (saved ++ [f.id.getD (fresh n)]) hur hnd2 hres2
      refine ⟨ihn, ?_, ?_, ?_⟩
      · intro i hi
        rcases ihsub i hi with h | h
        · rw [hids2, List.map_append] at h
          rcases List.mem_append.mp h with h | h
          · exact Or.inl h
          · simp only [List.map_cons, List.map_nil, List.mem_singleton,
              fresh_gcp_id] at h
            rw [h]
            exact Or.inr (List.mem_cons_self _ _)
        · exact Or.inr (List.mem_cons_of_mem _ h)
      · intro g hg hgres
        rw [List.mem_cons] at hgres
        push_neg at hgres
        have hg1 : g ∈ table ++ [fresh_gcp (f.id.getD (fresh n)) grp f.username] :=
          List.mem_append_left _ hg
        have hg2 := replace_map_mem_self f
          (fresh_gcp (f.id.getD (fresh n)) grp f.username)
          (f.id.getD (fresh n)) _ g hg1 hgres.1
        obtain ⟨hm, hiff⟩ := ihold g hg2 hgres.2
        refine ⟨hm, hiff.trans ?_⟩
        simp [List.mem_append, hgres.1]
      · intro i hi
        rcases List.mem_cons.mp hi with hi | hi
        · subst hi
          have hg0mem : fresh_gcp (f.id.getD (fresh n)) grp f.username
              ∈ table ++ [fresh_gcp (f.id.getD (fresh n)) grp f.username] :=
            List.mem_append_right _ (List.mem_singleton.mpr rfl)
          have hup := replace_map_mem_updated f
            (fresh_gcp (f.id.getD (fresh n)) grp f.username)
            (f.id.getD (fresh n)) _ rfl hg0mem
          refine ⟨_, (ihold _ hup hres1).1, rfl, fun _ => rfl⟩
        · obtain ⟨g2, hm, hid2, hgrp⟩ := ihnew i hi
          refine ⟨g2, hm, hid2, fun hnot => hgrp ?_⟩
          rw [hids2, List.map_append]
          intro hc
          rcases List.mem_append.mp hc with hc | hc
          · exact hnot hc
          · simp only [List.map_cons, List.map_nil, List.mem_singleton,
              fresh_gcp_id] at hc
            exact hres1 (hc ▸ hi)

theorem replace_map_nodup (f : Feature) (gc : GCP) (i : String) (hgc : gc.id = i)
    (table : List GCP) (hnd : (table.map GCP.id).Nodup) :
    ((table.map (fun g => if g.id = i then updated_gcp f gc else g)).map
      GCP.id).Nodup := by
  rw [replace_map_ids f gc i hgc table]
  exact hnd

theorem pf_update (users : List String) (fresh : Nat → String) (grp : Nat)
    (fs : List Feature) :
    ∀ (n : Nat) (table : List GCP) (saved : List String) (g : GCP) (f : Feature),
      (∀ f2 ∈ fs, f2.username ∈ users) →
      (table.map GCP.id).Nodup →
      (resolved_ids fresh n fs).Nodup →
      g ∈ table → f ∈ fs → f.id = some g.id →
      (gcp_unchanged f g →
        g ∈ (process_features users fresh grp n table saved fs).1 ∧
        (g.id ∈ (process_features users fresh grp n table saved fs).2.1 ↔
          g.id ∈ saved)) ∧
      (¬ gcp_unchanged f g →
        updated_gcp f g ∈ (process_features users fresh grp n table saved fs).1 ∧
        g.id ∈ (process_features users fresh grp n table saved fs).2.1) := by
  induction fs with
  | nil =>
    intro n table saved g f _ _ _ _ hf _
    cases hf
  | cons f0 rest ih =>
    intro n table saved g f hu hnd hres hg hf hid
    have hu0 : f0.username ∈ users := hu f0 (List.mem_cons_self f0 rest)
    have hur : ∀ f2 ∈ rest, f2.username ∈ users :=
      fun f2 h2 => hu f2 (List.mem_cons_of_mem f0 h2)
    rw [resolved_ids, List.nodup_cons] at hres
    obtain ⟨hres1, hres2⟩ := hres
    simp only [process_features, if_pos hu0]
    rcases List.mem_cons.mp hf with hf0 | hfr
    · subst hf0
      have hidh : f.id.getD (fresh n) = g.id := by rw [hid]; rfl
      rw [hidh] at hres1 ⊢
      simp only [find_id_of_mem_nodup g table hg hnd]
      by_cases hch : gcp_unchanged f g
      · rw [if_pos hch]
        obtain ⟨_, _, ihold, _⟩ :=
          pf_main users fresh grp rest (n + 1) table saved hur hnd hres2
        exact ⟨fun _ => ihold g hg hres1, fun hc => (hc hch).elim⟩
      · rw [if_neg hch]
        have hnd2 := replace_map_nodup f g g.id rfl table hnd
        obtain ⟨_, _, ihold, _⟩ :=
          pf_main users fresh grp rest (n + 1) _ (saved ++ [g.id]) hur hnd2 hres2
        have hup := replace_map_mem_updated f g g.id table rfl hg
        obtain ⟨hm, hiff⟩ := ihold _ hup hres1
        have hiff2 := hiff
        simp only [updated_gcp] at hiff2
        refine ⟨fun hc => (hch hc).elim, fun _ => ⟨hm, hiff2.mpr (by simp)⟩⟩
    · have hgres : g.id ∈ resolved_ids fresh (n + 1) rest :=
        mem_resolved_of_explicit fresh g.id rest (n + 1) f hfr hid
      have hne : f0.id.getD (fresh n) ≠ g.id := fun he => hres1 (he ▸ hgres)
      have hgne : g.id ≠ f0.id.getD (fresh n) := fun he => hne he.symm
      cases hfind : table.find? (fun x => x.id == f0.id.getD (fresh n)) with
      | some gf =>
        simp only [hfind]
        have hgfid : gf.id = f0.id.getD (fresh n) := by
          have hp := List.find?_some hfind
          simpa using hp
        by_cases hch : gcp_unchanged f0 gf
        · rw [if_pos hch]
          exact ih (n + 1) table saved g f hur hnd hres2 hg hfr hid
        · rw [if_neg hch]
          have hnd2 := replace_map_nodup f0 gf (f0.id.getD (fresh n)) hgfid table hnd
          have hg2 := replace_map_mem_self f0 gf (f0.id.getD (fresh n)) table g hg hgne
          obtain ⟨hA, hB⟩ := ih (n + 1) _ (saved ++ [f0.id.getD (fresh n)]) g f
            hur hnd2 hres2 hg2 hfr hid
          constructor
          · intro hch2
            obtain ⟨hm, hiff⟩ := hA hch2
            refine ⟨hm, hiff.trans ?_⟩
            simp [List.mem_append, hgne]
          · exact hB
      | none =>
        simp only [hfind]
        have hnotin : f0.id.getD (fresh n) ∉ table.map GCP.id := by
          intro hmem
          obtain ⟨x, hx, hxe⟩ := List.mem_map.mp hmem
          have hq := List.find?_eq_none.mp hfind x hx
          simp [hxe] at hq
        rw [if_neg (not_unchanged_fresh f0 (f0.id.getD (fresh n)) grp f0.username)]
        have hnd1 := append_fresh_nodup table
          (fresh_gcp (f0.id.getD (fresh n)) grp f0.username) hnd hnotin
        have hnd2 := replace_map_nodup f0
          (fresh_gcp (f0.id.getD (fresh n)) grp f0.username)
          (f0.id.getD (fresh n)) rfl
          (table ++ [fresh_gcp (f0.id.getD (fresh n)) grp f0.username]) hnd1
        have hg1 : g ∈ table ++ [fresh_gcp (f0.id.getD (fresh n)) grp f0.username] :=
          List.mem_append_left _ hg
        have hg2 := replace_map_mem_self f0
          (fresh_gcp (f0.id.getD (fresh n)) grp f0.username)
          (f0.id.getD (fresh n)) _ g hg1 hgne
        obtain ⟨hA, hB⟩ := ih (n + 1) _ (saved ++ [f0.id.getD (fresh n)]) g f
          hur hnd2 hres2 hg2 hfr hid
        constructor
        · intro hch2
          obtain ⟨hm, hiff⟩ := hA hch2
          refine ⟨hm, hiff.trans ?_⟩
          simp [List.mem_append, hgne]
        · exact hB

theorem save_core (users : List String) (fresh : Nat → String) (G : Nat)
    (table : List GCP) (fs : List Feature)
    (hu : ∀ f ∈ fs, f.username ∈ users)
    (hnd : (table.map GCP.id).Nodup)
    (hres : (resolved_ids fresh 0 fs).Nodup)
    (hfresh : ∀ n < fs.length, fresh n ∉ table.map GCP.id) :
    (process_features users fresh G 0
      (table.filter (fun g =>
        decide (g.gcp_group ≠ G ∨ some g.id ∈ fs.map Feature.id))) [] fs).2.2
      = none ∧
    (∀ g ∈ table, g.gcp_group = G → some g.id ∉ fs.map Feature.id →
      g.id ∉ ((process_features users fresh G 0
        (table.filter (fun g =>
          decide (g.gcp_group ≠ G ∨ some g.id ∈ fs.map Feature.id))) []
        fs).1.map GCP.id)) ∧
    (∀ i ∈ resolved_ids fresh 0 fs,
      ∃ g2, g2 ∈ (process_features users fresh G 0
          (table.filter (fun g =>
            decide (g.gcp_group ≠ G ∨ some g.id ∈ fs.map Feature.id))) []
          fs).1 ∧
        g2.id = i ∧ (i ∉ table.map GCP.id → g2.gcp_group = G)) ∧
    (∀ g ∈ table, ∀ f ∈ fs, f.id = some g.id →
      ((gcp_unchanged f g →
        g ∈ (process_features users fresh G 0
          (table.filter (fun g =>
            decide (g.gcp_group ≠ G ∨ some g.id ∈ fs.map Feature.id))) []
          fs).1 ∧
        g.id ∉ (process_features users fresh G 0
          (table.filter (fun g =>
            decide (g.gcp_group ≠ G ∨ some g.id ∈ fs.map Feature.id))) []
          fs).2.1) ∧
      (¬ gcp_unchanged f g →
        updated_gcp f g ∈ (process_features users fresh G 0
          (table.filter (fun g =>
            decide (g.gcp_group ≠ G ∨ some g.id ∈ fs.map Feature.id))) []
          fs).1 ∧
        g.id ∈ (process_features users fresh G 0
          (table.filter (fun g =>
            decide (g.gcp_group ≠ G ∨ some g.id ∈ fs.map Feature.id))) []
          fs).2.1))) := by
  set t1 := table.filter (fun g =>
    decide (g.gcp_group ≠ G ∨ some g.id ∈ fs.map Feature.id)) with ht1
  have hsub : ∀ x ∈ t1, x ∈ table := fun x hx => List.mem_of_mem_filter hx
  have hnd1 : (t1.map GCP.id).Nodup :=
    List.Nodup.sublist (List.Sublist.map GCP.id (List.filter_sublist table)) hnd
  obtain ⟨mn, msub, mold, mnew⟩ := pf_main users fresh G fs 0 t1 [] hu hnd1 hres
  refine ⟨pf_err_none users fresh fs hu G 0 t1 [], ?_, ?_, ?_⟩
  · intro g hg hgrp hnotin hin
    rcases msub g.id hin with hin1 | hin1
    · obtain ⟨g', hg', hg'id⟩ := List.mem_map.mp hin1
      have hg'tab : g' ∈ table := hsub g' hg'
      have heq : g' = g := List.inj_on_of_nodup_map hnd hg'tab hg hg'id
      subst heq
      have hcond := List.of_mem_filter hg'
      rw [decide_eq_true_eq] at hcond
      rcases hcond with hc | hc
      · exact hc hgrp
      · exact hnotin hc
    · rcases resolved_mem_cases fresh g.id fs 0 hin1 with hc | ⟨m, _, hm2, he⟩
      · exact hnotin hc
      · have hfm := hfresh m (by simpa using hm2)
        exact hfm (he ▸ List.mem_map_of_mem GCP.id hg)
  · intro i hi
    obtain ⟨g2, hm, hid2, hgrpc⟩ := mnew i hi
    refine ⟨g2, hm, hid2, fun hno => hgrpc ?_⟩
    intro hc
    obtain ⟨g', hg', he⟩ := List.mem_map.mp hc
    exact hno (he ▸ List.mem_map_of_mem GCP.id (hsub g' hg'))
  · intro g hg f hf hid
    have hgin1 : g ∈ t1 := by
      rw [ht1, List.mem_filter]
      refine ⟨hg, ?_⟩
      rw [decide_eq_true_eq]
      exact Or.inr (hid ▸ List.mem_map_of_mem Feature.id hf)
    obtain ⟨hA, hB⟩ := pf_update users fresh G fs 0 t1 [] g f hu hnd1 hres hgin1 hf hid
    constructor
    · intro hch
      obtain ⟨hm, hiff⟩ := hA hch
      refine ⟨hm, fun hc => ?_⟩
      simpa using hiff.mp hc
    · exact hB

/-- C4: GCPGroup.save_from_geojson applies a wholesale point-set diff.
Under the database and input sanity conditions (usernames known, stored GCP
ids unique, incoming resolved ids unique, fresh uuids collision-free):
the call raises nothing; every stored GCP of the saved group whose id is
absent from the incoming feature ids is deleted; a GCP exists afterwards for
every incoming feature id (freshly created, in this group, when the id was
new or missing); and an existing GCP addressed by an incoming feature is
rewritten (pixel pair, geometry, modifier) exactly when one of its
coordinate pairs differs, while a coordinate-identical GCP is left untouched
and is not re-saved. -/
theorem C4_save_from_geojson_diff (users : List String) (fresh : Nat → String)
    (freshGroupPk : Nat) (priorGroup : Option GCPGroup) (table : List GCP)
    (fs : List Feature) (document : Nat) (transformation : Option String)
    (hu : ∀ f ∈ fs, f.username ∈ users)
    (hnd : (table.map GCP.id).Nodup)
    (hres : (resolved_ids fresh 0 fs).Nodup)
    (hfresh : ∀ n < fs.length, fresh n ∉ table.map GCP.id) :
    (save_from_geojson users fresh freshGroupPk priorGroup table (some fs)
      document transformation).err = none ∧
    (∀ g ∈ table,
      g.gcp_group = (save_from_geojson users fresh freshGroupPk priorGroup
        table (some fs) document transformation).group.pk →
      some g.id ∉ fs.map Feature.id →
      g.id ∉ ((save_from_geojson users fresh freshGroupPk priorGroup table
        (some fs) document transformation).table.map GCP.id)) ∧
    (∀ i ∈ resolved_ids fresh 0 fs,
      ∃ g2, g2 ∈ (save_from_geojson users fresh freshGroupPk priorGroup table
          (some fs) document transformation).table ∧
        g2.id = i ∧
        (i ∉ table.map GCP.id →
          g2.gcp_group = (save_from_geojson users fresh freshGroupPk
            priorGroup table (some fs) document transformation).group.pk)) ∧
    (∀ g ∈ table, ∀ f ∈ fs, f.id = some g.id →
      ((gcp_unchanged f g →
        g ∈ (save_from_geojson users fresh freshGroupPk priorGroup table
          (some fs) document transformation).table ∧
        g.id ∉ (save_from_geojson users fresh freshGroupPk priorGroup table
          (some fs) document transformation).saved) ∧
      (¬ gcp_unchanged f g →
        updated_gcp f g ∈ (save_from_geojson users fresh freshGroupPk
          priorGroup table (some fs) document transformation).table ∧
        g.id ∈ (save_from_geojson users fresh freshGroupPk priorGroup table
          (some fs) document transformation).saved))) := by
  cases priorGroup with
  | none => exact save_core users fresh freshGroupPk table fs hu hnd hres hfresh
  | some gr => exact save_core users fresh gr.pk table fs hu hnd hres hfresh

theorem C4_save_from_geojson_diff_witness :
    (save_from_geojson ["alice"] (fun n => "u" ++ toString n) 99 (some { pk := 1, document := 7, crs_epsg := some 4326, transformation := some "tps" }) [{ id := "a", gcp_group := 1, pixel_x := some 1, pixel_y := some 2, geom := some (20, 10), note := none, created_by := some "alice", last_modified_by := some "alice" }, { id := "b", gcp_group := 1, pixel_x := some 5, pixel_y := some 6, geom := some (60, 50), note := none, created_by := some "alice", last_modified_by := some "alice" }] (some [{ id := some "a", username := "alice", image := (1, 2), coordinates := (10, 20) }, { id := none, username := "alice", image := (3, 4), coordinates := (30, 40) }]) 7 (some "poly1")).err = none ∧
    "b" ∉ ((save_from_geojson ["alice"] (fun n => "u" ++ toString n) 99 (some { pk := 1, document := 7, crs_epsg := some 4326, transformation := some "tps" }) [{ id := "a", gcp_group := 1, pixel_x := some 1, pixel_y := some 2, geom := some (20, 10), note := none, created_by := some "alice", last_modified_by := some "alice" }, { id := "b", gcp_group := 1, pixel_x := some 5, pixel_y := some 6, geom := some (60, 50), note := none, created_by := some "alice", last_modified_by := some "alice" }] (some [{ id := some "a", username := "alice", image := (1, 2), coordinates := (10, 20) }, { id := none, username := "alice", image := (3, 4), coordinates := (30, 40) }]) 7 (some "poly1")).table.map GCP.id) ∧
    (∃ g2, g2 ∈ (save_from_geojson ["alice"] (fun n => "u" ++ toString n) 99 (some { pk := 1, document := 7, crs_epsg := some 4326, transformation := some "tps" }) [{ id := "a", gcp_group := 1, pixel_x := some 1, pixel_y := some 2, geom := some (20, 10), note := none, created_by := some "alice", last_modified_by := some "alice" }, { id := "b", gcp_group := 1, pixel_x := some 5, pixel_y := some 6, geom := some (60, 50), note := none, created_by := some "alice", last_modified_by := some "alice" }] (some [{ id := some "a", username := "alice", image := (1, 2), coordinates := (10, 20) }, { id := none, username := "alice", image := (3, 4), coordinates := (30, 40) }]) 7 (some "poly1")).table ∧ g2.id = "u1" ∧ g2.gcp_group = 1) ∧
    ({ id := "a", gcp_group := 1, pixel_x := some 1, pixel_y := some 2, geom := some (20, 10), note := none, created_by := some "alice", last_modified_by := some "alice" } : GCP) ∈ (save_from_geojson ["alice"] (fun n => "u" ++ toString n) 99 (some { pk := 1, document := 7, crs_epsg := some 4326, transformation := some "tps" }) [{ id := "a", gcp_group := 1, pixel_x := some 1, pixel_y := some 2, geom := some (20, 10), note := none, created_by := some "alice", last_modified_by := some "alice" }, { id := "b", gcp_group := 1, pixel_x := some 5, pixel_y := some 6, geom := some (60, 50), note := none, created_by := some "alice", last_modified_by := some "alice" }] (some [{ id := some "a", username := "alice", image := (1, 2), coordinates := (10, 20) }, { id := none, username := "alice", image := (3, 4), coordinates := (30, 40) }]) 7 (some "poly1")).table ∧
    "a" ∉ (save_from_geojson ["alice"] (fun n => "u" ++ toString n) 99 (some { pk := 1, document := 7, crs_epsg := some 4326, transformation := some "tps" }) [{ id := "a", gcp_group := 1, pixel_x := some 1, pixel_y := some 2, geom := some (20, 10), note := none, created_by := some "alice", last_modified_by := some "alice" }, { id := "b", gcp_group := 1, pixel_x := some 5, pixel_y := some 6, geom := some (60, 50), note := none, created_by := some "alice", last_modified_by := some "alice" }] (some [{ id := some "a", username := "alice", image := (1, 2), coordinates := (10, 20) }, { id := none, username := "alice", image := (3, 4), coordinates := (30, 40) }]) 7 (some "poly1")).saved := by
  have h := C4_save_from_geojson_diff ["alice"] (fun n => "u" ++ toString n) 99
    (some { pk := 1, document := 7, crs_epsg := some 4326, transformation := some "tps" })
    [{ id := "a", gcp_group := 1, pixel_x := some 1, pixel_y := some 2, geom := some (20, 10), note := none, created_by := some "alice", last_modified_by := some "alice" }, { id := "b", gcp_group := 1, pixel_x := some 5, pixel_y := some 6, geom := some (60, 50), note := none, created_by := some "alice", last_modified_by := some "alice" }]
    [{ id := some "a", username := "alice", image := (1, 2), coordinates := (10, 20) }, { id := none, username := "alice", image := (3, 4), coordinates := (30, 40) }]
    7 (some "poly1") (by decide) (by decide) (by decide) (by decide)
  have h4 := (h.2.2.2 { id := "a", gcp_group := 1, pixel_x := some 1, pixel_y := some 2, geom := some (20, 10), note := none, created_by := some "alice", last_modified_by := some "alice" } (by decide) { id := some "a", username := "alice", image := (1, 2), coordinates := (10, 20) } (by decide) rfl).1 (by decide)
  refine ⟨h.1, h.2.1 { id := "b", gcp_group := 1, pixel_x := some 5, pixel_y := some 6, geom := some (60, 50), note := none, created_by := some "alice", last_modified_by := some "alice" } (by decide) rfl (by decide), ?_, h4.1, h4.2⟩
  obtain ⟨g2, hm, hid2, hgrp⟩ := h.2.2.1 "u1" (by decide)
  exact ⟨g2, hm, hid2, hgrp (by decide)⟩

theorem map_map_pk (g : LayerRec → LayerRec) (hg : ∀ l, (g l).pk = l.pk)
    (ls : List LayerRec) :
    (ls.map g).map LayerRec.pk = ls.map LayerRec.pk := by
  rw [List.map_map]
  exact List.map_congr_left (fun l _ => hg l)

theorem find_pk_map (g : LayerRec → LayerRec) (hg : ∀ l, (g l).pk = l.pk)
    (ls : List LayerRec) (t : Nat) :
    (ls.map g).find? (fun l => l.pk == t)
      = (ls.find? (fun l => l.pk == t)).map g := by
  induction ls with
  | nil => rfl
  | cons a as ih =>
    rw [List.map_cons, List.find?_cons, List.find?_cons]
    by_cases hp : a.pk = t
    · have hb1 : ((g a).pk == t) = true := by rw [hg a]; simp [hp]
      have hb2 : (a.pk == t) = true := by simp [hp]
      rw [hb1, hb2]
      rfl
    · have hb1 : ((g a).pk == t) = false := by rw [hg a]; simp [hp]
      have hb2 : (a.pk == t) = false := by simp [hp]
      rw [hb1, hb2]
      exact ih

theorem find_pk_append (ls rs : List LayerRec) (t : Nat)
    (h : ∀ l ∈ ls, l.pk ≠ t) :
    (ls ++ rs).find? (fun l => l.pk == t) = rs.find? (fun l => l.pk == t) := by
  rw [List.find?_append]
  have hn : ls.find? (fun l => l.pk == t) = none := by
    rw [List.find?_eq_none]
    intro x hx
    simp [h x hx]
  rw [hn]
  rfl

set_option maxRecDepth 8000 in
/-- C5: running a Georeference session twice with unchanged control points.
From a state with no GeoreferencedDocumentLink yet (and a collision-free new
layer pk), a successful run creates one layer and one link; the second run
finds the existing link, overwrites that same layer (same pk, no new layer
row, no new link, so exactly one link exists afterwards), and writes the
identical raster content, since the transform fit and warp are deterministic
in the control points (spec 4.1, modelled by the fixed `makeTif` outcome). -/
theorem C5_run_idempotent (env : RunEnv) (st : RunState) (out : String)
    (fs : List Feature)
    (h1 : env.loadGcps = .ok ())
    (h2 : env.makeTif = .ok out)
    (h3 : st.links = [])
    (h4 : ∀ lr ∈ st.layers, lr.pk ≠ env.freshLayerPk)
    (h5 : st.mem.gcps_used = some fs)
    (h6 : ∀ f ∈ fs, f.username ∈ env.users) :
    (GeoreferenceSession_run env st).2 = .ok (some env.freshLayerPk) ∧
    (GeoreferenceSession_run env st).1.links = [env.freshLayerPk] ∧
    (GeoreferenceSession_run env (GeoreferenceSession_run env st).1).2
      = .ok (some env.freshLayerPk) ∧
    (GeoreferenceSession_run env (GeoreferenceSession_run env st).1).1.links
      = [env.freshLayerPk] ∧
    ((GeoreferenceSession_run env (GeoreferenceSession_run env st).1).1.layers.map
        LayerRec.pk
      = (GeoreferenceSession_run env st).1.layers.map LayerRec.pk) ∧
    layer_content (GeoreferenceSession_run env st).1 env.freshLayerPk = some out ∧
    layer_content (GeoreferenceSession_run env (GeoreferenceSession_run env st).1).1
      env.freshLayerPk = some out := by
  have herr := pf_err_none env.users env.freshGcpId fs h6
  have hfnone : st.layers.find? (fun l => l.pk == env.freshLayerPk) = none := by
    rw [List.find?_eq_none]
    intro x hx
    simp [h4 x hx]
  simp only [GeoreferenceSession_run, upd, update_status, save_update_fields_status,
    fullSave, setDocStatus, set_layer_tkeyword, file_upload, get_existing_layer,
    save_from_geojson, layer_content, h1, h2, h3, h5, herr, List.nil_append,
    List.any_map, List.any_append, List.any_cons, List.any_nil,
    Function.comp_apply, beq_self_eq_true, Bool.or_true, Bool.or_false,
    eq_self_iff_true, if_true, and_true, true_and]
  refine ⟨?_, ?_, ?_⟩
  · rw [map_map_pk, map_map_pk, map_map_pk, map_map_pk]
    all_goals intro l; by_cases h : l.pk = env.freshLayerPk <;> simp [h]
  · rw [find_pk_map, find_pk_append st.layers _ env.freshLayerPk h4]
    all_goals first
      | (intro l; by_cases h : l.pk = env.freshLayerPk <;> simp [h])
      | simp
  · rw [find_pk_map, find_pk_map, find_pk_map, find_pk_map,
      find_pk_append st.layers _ env.freshLayerPk h4]
    all_goals first
      | (intro l; by_cases h : l.pk = env.freshLayerPk <;> simp [h])
      | simp

theorem C5_run_idempotent_witness :
    (GeoreferenceSession_run { loadGcps := .ok (), makeTif := .ok "tif-bytes", freshLayerPk := 42, users := ["alice"], freshGcpId := fun _ => "u0", freshGroupPk := 5 } { store := { document := 7, gcps_used := some [], transformation_used := some "poly1", crs_epsg_used := some 3857, status := "initializing", note := none, layer := none }, mem := { document := 7, gcps_used := some [], transformation_used := some "poly1", crs_epsg_used := some 3857, status := "initializing", note := none, layer := none }, docStatus := "prepared", docTitle := "Doc", links := [], layers := [], gcpGroup := none, gcpTable := [], metaCopied := false }).2 = .ok (some 42) ∧
    (GeoreferenceSession_run { loadGcps := .ok (), makeTif := .ok "tif-bytes", freshLayerPk := 42, users := ["alice"], freshGcpId := fun _ => "u0", freshGroupPk := 5 } { store := { document := 7, gcps_used := some [], transformation_used := some "poly1", crs_epsg_used := some 3857, status := "initializing", note := none, layer := none }, mem := { document := 7, gcps_used := some [], transformation_used := some "poly1", crs_epsg_used := some 3857, status := "initializing", note := none, layer := none }, docStatus := "prepared", docTitle := "Doc", links := [], layers := [], gcpGroup := none, gcpTable := [], metaCopied := false }).1.links = [42] ∧
    (GeoreferenceSession_run { loadGcps := .ok (), makeTif := .ok "tif-bytes", freshLayerPk := 42, users := ["alice"], freshGcpId := fun _ => "u0", freshGroupPk := 5 } (GeoreferenceSession_run { loadGcps := .ok (), makeTif := .ok "tif-bytes", freshLayerPk := 42, users := ["alice"], freshGcpId := fun _ => "u0", freshGroupPk := 5 } { store := { document := 7, gcps_used := some [], transformation_used := some "poly1", crs_epsg_used := some 3857, status := "initializing", note := none, layer := none }, mem := { document := 7, gcps_used := some [], transformation_used := some "poly1", crs_epsg_used := some 3857, status := "initializing", note := none, layer := none }, docStatus := "prepared", docTitle := "Doc", links := [], layers := [], gcpGroup := none, gcpTable := [], metaCopied := false }).1).2 = .ok (some 42) ∧
    (GeoreferenceSession_run { loadGcps := .ok (), makeTif := .ok "tif-bytes", freshLayerPk := 42, users := ["alice"], freshGcpId := fun _ => "u0", freshGroupPk := 5 } (GeoreferenceSession_run { loadGcps := .ok (), makeTif := .ok "tif-bytes", freshLayerPk := 42, users := ["alice"], freshGcpId := fun _ => "u0", freshGroupPk := 5 } { store := { document := 7, gcps_used := some [], transformation_used := some "poly1", crs_epsg_used := some 3857, status := "initializing", note := none, layer := none }, mem := { document := 7, gcps_used := some [], transformation_used := some "poly1", crs_epsg_used := some 3857, status := "initializing", note := none, layer := none }, docStatus := "prepared", docTitle := "Doc", links := [], layers := [], gcpGroup := none, gcpTable := [], metaCopied := false }).1).1.links = [42] ∧
    ((GeoreferenceSession_run { loadGcps := .ok (), makeTif := .ok "tif-bytes", freshLayerPk := 42, users := ["alice"], freshGcpId := fun _ => "u0", freshGroupPk := 5 } (GeoreferenceSession_run { loadGcps := .ok (), makeTif := .ok "tif-bytes", freshLayerPk := 42, users := ["alice"], freshGcpId := fun _ => "u0", freshGroupPk := 5 } { store := { document := 7, gcps_used := some [], transformation_used := some "poly1", crs_epsg_used := some 3857, status := "initializing", note := none, layer := none }, mem := { document := 7, gcps_used := some [], transformation_used := some "poly1", crs_epsg_used := some 3857, status := "initializing", note := none, layer := none }, docStatus := "prepared", docTitle := "Doc", links := [], layers := [], gcpGroup := none, gcpTable := [], metaCopied := false }).1).1.layers.map LayerRec.pk = (GeoreferenceSession_run { loadGcps := .ok (), makeTif := .ok "tif-bytes", freshLayerPk := 42, users := ["alice"], freshGcpId := fun _ => "u0", freshGroupPk := 5 } { store := { document := 7, gcps_used := some [], transformation_used := some "poly1", crs_epsg_used := some 3857, status := "initializing", note := none, layer := none }, mem := { document := 7, gcps_used := some [], transformation_used := some "poly1", crs_epsg_used := some 3857, status := "initializing", note := none, layer := none }, docStatus := "prepared", docTitle := "Doc", links := [], layers := [], gcpGroup := none, gcpTable := [], metaCopied := false }).1.layers.map LayerRec.pk) ∧
    layer_content (GeoreferenceSession_run { loadGcps := .ok (), makeTif := .ok "tif-bytes", freshLayerPk := 42, users := ["alice"], freshGcpId := fun _ => "u0", freshGroupPk := 5 } { store := { document := 7, gcps_used := some [], transformation_used := some "poly1", crs_epsg_used := some 3857, status := "initializing", note := none, layer := none }, mem := { document := 7, gcps_used := some [], transformation_used := some "poly1", crs_epsg_used := some 3857, status := "initializing", note := none, layer := none }, docStatus := "prepared", docTitle := "Doc", links := [], layers := [], gcpGroup := none, gcpTable := [], metaCopied := false }).1 42 = some "tif-bytes" ∧
    layer_content (GeoreferenceSession_run { loadGcps := .ok (), makeTif := .ok "tif-bytes", freshLayerPk := 42, users := ["alice"], freshGcpId := fun _ => "u0", freshGroupPk := 5 } (GeoreferenceSession_run { loadGcps := .ok (), makeTif := .ok "tif-bytes", freshLayerPk := 42, users := ["alice"], freshGcpId := fun _ => "u0", freshGroupPk := 5 } { store := { document := 7, gcps_used := some [], transformation_used := some "poly1", crs_epsg_used := some 3857, status := "initializing", note := none, layer := none }, mem := { document := 7, gcps_used := some [], transformation_used := some "poly1", crs_epsg_used := some 3857, status := "initializing", note := none, layer := none }, docStatus := "prepared", docTitle := "Doc", links := [], layers := [], gcpGroup := none, gcpTable := [], metaCopied := false }).1).1 42 = some "tif-bytes" :=
  C5_run_idempotent { loadGcps := .ok (), makeTif := .ok "tif-bytes", freshLayerPk := 42, users := ["alice"], freshGcpId := fun _ => "u0", freshGroupPk := 5 } { store := { document := 7, gcps_used := some [], transformation_used := some "poly1", crs_epsg_used := some 3857, status := "initializing", note := none, layer := none }, mem := { document := 7, gcps_used := some [], transformation_used := some "poly1", crs_epsg_used := some 3857, status := "initializing", note := none, layer := none }, docStatus := "prepared", docTitle := "Doc", links := [], layers := [], gcpGroup := none, gcpTable := [], metaCopied := false } "tif-bytes" [] rfl rfl rfl (by simp) rfl (by simp)
